import Mathlib

/-!
# Verification of the Android TV remote-control service (`src/main.py`)

Shallow embedding of the repository's session manager (`TVController`),
per-user controller cache (`get_tv_controller`), HTTP route handlers and
the OAuth callback's allow-list check, together with proofs of the
frozen behavioural claims.

The device transport (the local ADB broker and the device handle) is
modelled as an oracle `ω : Nat → Outcome`: each transport-level call
(a `client.connect` or a `device.shell`) consumes the next outcome, which
says whether that call raises an exception and, for connect, which device
handle (identified by its serial string) is returned.  Every transport
call is recorded in a trace, so that "number of connect attempts" and
"number of instructions written" are observable.

Methods are embedded in an explicit exception style: a method's result is
`Except Unit Bool` so that an unhandled transport exception would surface
as `.error`; the `try/except` blocks of the source appear as explicit
matches on primitive results.
-/

namespace AndroidRemote

/-- One transport-call outcome supplied by the environment.
`raise` says the call raises an exception.  For a connect call, `dev`
is the returned device handle: `none` models a falsy return, and
`some serial` a handle whose `get_serial_no()` yields `serial`. -/
structure Outcome where
  raise : Bool
  dev : Option String
deriving Repr, DecidableEq

/-- A recorded transport call: a broker connect request to `host:port`,
or a shell call on the device handle carrying command string `cmd`;
`ok` records whether the shell call completed without raising. -/
inductive TCall where
  | connect (host : String) (port : Nat)
  | shell (cmd : String) (ok : Bool)
deriving Repr, DecidableEq

/-- The mutable attributes of a `TVController` instance: the configured
endpoint and the cached device handle (`none` = `self.device is None`),
the handle being identified by its serial string. -/
structure TVController where
  host : String
  port : Nat
  device : Option String
deriving Repr, DecidableEq

/-- Execution state threaded through a controller method: the controller
object, the oracle cursor, and the trace of transport calls made so far. -/
structure St where
  ctrl : TVController
  idx : Nat
  trace : List TCall
deriving Repr, DecidableEq

/-- `self.device.shell(cmd)`: consumes one oracle outcome; raises iff the
outcome says so.  The call is recorded in the trace together with whether
it completed. -/
def shellCall (ω : Nat → Outcome) (cmd : String) (s : St) : Except Unit Unit × St :=
  let o := ω s.idx
  let s' : St := { s with idx := s.idx + 1, trace := s.trace ++ [.shell cmd (!o.raise)] }
  if o.raise then (.error (), s') else (.ok (), s')

/-- `self.client.connect(self.host, self.port)`: consumes one oracle
outcome; raises iff the outcome says so, otherwise returns the device
handle the oracle supplies (`none` for a falsy return). -/
def connectCall (ω : Nat → Outcome) (s : St) : Except Unit (Option String) × St :=
  let o := ω s.idx
  let s' : St := { s with idx := s.idx + 1,
                          trace := s.trace ++ [.connect s.ctrl.host s.ctrl.port] }
  if o.raise then (.error (), s') else (.ok o.dev, s')

-- Android key codes (src/main.py lines 40-50)
def KEYCODE_POWER : Nat := 26
def KEYCODE_VOLUME_UP : Nat := 24
def KEYCODE_VOLUME_DOWN : Nat := 25
def KEYCODE_MUTE : Nat := 164
def KEYCODE_DPAD_UP : Nat := 19
def KEYCODE_DPAD_DOWN : Nat := 20
def KEYCODE_DPAD_LEFT : Nat := 21
def KEYCODE_DPAD_RIGHT : Nat := 22
def KEYCODE_DPAD_CENTER : Nat := 23
def KEYCODE_BACK : Nat := 4
def KEYCODE_HOME : Nat := 3

/-- `TVController.connect` (src/main.py lines 61-72).  The whole body is
inside `try: ... except Exception: return False`, so a raising transport
call yields `.ok false`, never `.error`.  On success with a truthy handle
and a non-empty serial the handle is stored in `self.device`. -/
def connectM (ω : Nat → Outcome) (s : St) : Except Unit Bool × St :=
  match connectCall ω s with
  | (.error _, s') => (.ok false, s')
  | (.ok dev, s') =>
    match dev with
    | some serial =>
      if serial ≠ "" then
        (.ok true, { s' with ctrl := { s'.ctrl with device := some serial } })
      else (.ok false, s')
    | none => (.ok false, s')

/-- `TVController.ensure_connected` (src/main.py lines 74-83).  With a
cached handle it probes with `shell('echo test')`; on a raising probe the
bare `except:` falls through to one `connect()` call.  With no handle it
goes straight to `connect()`. -/
def ensureConnectedM (ω : Nat → Outcome) (s : St) : Except Unit Bool × St :=
  match s.ctrl.device with
  | some _ =>
    match shellCall ω "echo test" s with
    | (.ok _, s') => (.ok true, s')
    | (.error _, s') => connectM ω s'
  | none => connectM ω s

/-- `TVController.send_keyevent` (src/main.py lines 85-93).  The
`ensure_connected` call is outside any `try`, so an exception from it
would propagate; the keyevent shell call is wrapped in
`try/except Exception`. -/
def sendKeyeventM (ω : Nat → Outcome) (keycode : Nat) (s : St) : Except Unit Bool × St :=
  match ensureConnectedM ω s with
  | (.error e, s1) => (.error e, s1)
  | (.ok false, s1) => (.ok false, s1)
  | (.ok true, s1) =>
    match shellCall ω ("input keyevent " ++ toString keycode) s1 with
    | (.ok _, s2) => (.ok true, s2)
    | (.error _, s2) => (.ok false, s2)

/-- `TVController.power` (src/main.py lines 95-96). -/
def powerM (ω : Nat → Outcome) (s : St) : Except Unit Bool × St :=
  sendKeyeventM ω KEYCODE_POWER s

/-- `TVController.volume_up` (src/main.py lines 98-99). -/
def volumeUpM (ω : Nat → Outcome) (s : St) : Except Unit Bool × St :=
  sendKeyeventM ω KEYCODE_VOLUME_UP s

/-- `TVController.volume_down` (src/main.py lines 101-102). -/
def volumeDownM (ω : Nat → Outcome) (s : St) : Except Unit Bool × St :=
  sendKeyeventM ω KEYCODE_VOLUME_DOWN s

/-- `TVController.mute` (src/main.py lines 104-105). -/
def muteM (ω : Nat → Outcome) (s : St) : Except Unit Bool × St :=
  sendKeyeventM ω KEYCODE_MUTE s

/-- The `keycode_map` dictionary of `TVController.navigate`
(src/main.py lines 108-116). -/
def keycode_map (direction : String) : Option Nat :=
  if direction = "up" then some KEYCODE_DPAD_UP
  else if direction = "down" then some KEYCODE_DPAD_DOWN
  else if direction = "left" then some KEYCODE_DPAD_LEFT
  else if direction = "right" then some KEYCODE_DPAD_RIGHT
  else if direction = "ok" then some KEYCODE_DPAD_CENTER
  else if direction = "back" then some KEYCODE_BACK
  else if direction = "home" then some KEYCODE_HOME
  else none

/-- `TVController.navigate` (src/main.py lines 107-122): an unrecognized
direction returns `False` before any transport call. -/
def navigateM (ω : Nat → Outcome) (direction : String) (s : St) : Except Unit Bool × St :=
  match keycode_map direction with
  | none => (.ok false, s)
  | some k => sendKeyeventM ω k s

/-- `TVController.launch_app` (src/main.py lines 124-132). -/
def launchAppM (ω : Nat → Outcome) (packageName : String) (s : St) : Except Unit Bool × St :=
  match ensureConnectedM ω s with
  | (.error e, s1) => (.error e, s1)
  | (.ok false, s1) => (.ok false, s1)
  | (.ok true, s1) =>
    match shellCall ω ("monkey -p " ++ packageName ++
        " -c android.intent.category.LAUNCHER 1") s1 with
    | (.ok _, s2) => (.ok true, s2)
    | (.error _, s2) => (.ok false, s2)

/-- Splitting a character list at every `','`, the semantics of Python's
`str.split(',')` with an explicit separator: the result always has one
more element than the number of separators, so splitting the empty
string yields `[[]]` (Python: `''.split(',') == ['']`). -/
def splitCommaList : List Char → List (List Char)
  | [] => [[]]
  | c :: cs =>
    let r := splitCommaList cs
    if c = ',' then [] :: r
    else
      match r with
      | h :: t => (c :: h) :: t
      | [] => [[c]]

/-- Python's `s.split(',')` on a string. -/
def pySplitComma (s : String) : List String :=
  (splitCommaList s.toList).map (fun l => String.mk l)

/-- `Config.ALLOWED_EMAILS = os.getenv('ALLOWED_EMAILS', '').split(',')`
(src/main.py line 37), as a function of the environment variable
(`none` = unset). -/
def ALLOWED_EMAILS (env : Option String) : List String :=
  pySplitComma (env.getD "")

/-- The identity returned by the provider's token exchange: the fields of
`userinfo` that the application reads. -/
structure UserInfo where
  sub : String
  email : String
  name : String
  picture : String
deriving Repr, DecidableEq

/-- The server-side session and Flask-Login state touched by the callback:
`session['user_info']` and whether `login_user` has run. -/
structure SessionSt where
  user_info : Option UserInfo
  loggedIn : Bool
deriving Repr, DecidableEq

/-- An HTTP response: status code, the JSON `status` field, and the JSON
`message` field.  A redirect is coded 302 with the target in `message`. -/
structure Response where
  code : Nat
  status : String
  message : String
deriving Repr, DecidableEq

/-- The `/auth/callback` handler (src/main.py lines 200-221), from the
point where the token exchange has produced `user_info` (`none` models a
token with no `userinfo`).  `allowed` is `Config.ALLOWED_EMAILS`; the
guard `if Config.ALLOWED_EMAILS and ...` tests Python truthiness of the
list, i.e. non-emptiness. -/
def callback (allowed : List String) (userInfoTok : Option UserInfo)
    (sess : SessionSt) : Response × SessionSt :=
  match userInfoTok with
  | none => ({ code := 400, status := "error", message := "Failed to get user info" }, sess)
  | some ui =>
    if allowed ≠ [] ∧ ui.email ∉ allowed then
      ({ code := 403, status := "error", message := "Unauthorized email address" }, sess)
    else
      ({ code := 302, status := "redirect", message := "/" },
       { user_info := some ui, loggedIn := true })

/-- Process-wide state seen by the API routes: the `tv_controller_cache`
dictionary (keyed by user id), plus the transport oracle cursor and the
transport trace shared with the controller methods. -/
structure GSt where
  cache : String → Option TVController
  idx : Nat
  trace : List TCall

/-- View of the global state as one controller's method-execution state. -/
def GSt.toSt (g : GSt) (c : TVController) : St :=
  { ctrl := c, idx := g.idx, trace := g.trace }

/-- Write a controller method's final state back into the global state,
updating the cache slot of `uid` in place (the cached Python object is
mutated through the alias, so the dictionary entry observes the new
`device` field). -/
def GSt.writeBack (g : GSt) (uid : String) (s : St) : GSt :=
  { cache := fun v => if v = uid then some s.ctrl else g.cache v,
    idx := s.idx, trace := s.trace }

/-- `get_tv_controller` (src/main.py lines 166-181): cache hit returns the
cached controller; on a miss a fresh `TVController(host, port)` is built
and `connect()` attempted, the controller being cached only on success;
on failure the function returns `None` and caches nothing. -/
def getTVController (ω : Nat → Outcome) (uid host : String) (port : Nat)
    (g : GSt) : Option TVController × GSt :=
  match g.cache uid with
  | some c => (some c, g)
  | none =>
    let c0 : TVController := { host := host, port := port, device := none }
    match connectM ω (g.toSt c0) with
    | (.ok true, s') =>
      (some s'.ctrl, g.writeBack uid s')
    | (_, s') =>
      (none, { g with idx := s'.idx, trace := s'.trace })

/-- Shared tail of every TV route (e.g. `power`, src/main.py lines
266-287): resolve the controller via `get_tv_controller` (500 on `None`),
run the given method on it, and report success or a 500 error.
`okMsg`/`errMsg` are the route's two message strings. -/
def runTVRoute (ω : Nat → Outcome) (uid host : String) (port : Nat)
    (method : (Nat → Outcome) → St → Except Unit Bool × St)
    (okMsg errMsg : String) (g : GSt) : Response × GSt :=
  match getTVController ω uid host port g with
  | (none, g1) =>
    ({ code := 500, status := "error", message := "Failed to connect to Android TV" }, g1)
  | (some c, g1) =>
    match method ω (g1.toSt c) with
    | (.ok true, s') =>
      ({ code := 200, status := "success", message := okMsg }, g1.writeBack uid s')
    | (_, s') =>
      ({ code := 500, status := "error", message := errMsg }, g1.writeBack uid s')

/-- `POST /api/tv/power` (src/main.py lines 266-287), for an
authenticated, allow-listed user `uid`. -/
def powerRoute (ω : Nat → Outcome) (uid host : String) (port : Nat)
    (g : GSt) : Response × GSt :=
  runTVRoute ω uid host port powerM
    "Power command sent successfully" "Failed to send power command" g

/-- `POST /api/tv/volume/up` (src/main.py lines 289-310). -/
def volumeUpRoute (ω : Nat → Outcome) (uid host : String) (port : Nat)
    (g : GSt) : Response × GSt :=
  runTVRoute ω uid host port volumeUpM
    "Volume up command sent successfully" "Failed to send volume up command" g

/-- `POST /api/tv/volume/down` (src/main.py lines 312-333). -/
def volumeDownRoute (ω : Nat → Outcome) (uid host : String) (port : Nat)
    (g : GSt) : Response × GSt :=
  runTVRoute ω uid host port volumeDownM
    "Volume down command sent successfully" "Failed to send volume down command" g

/-- `POST /api/tv/volume/mute` (src/main.py lines 335-356). -/
def muteRoute (ω : Nat → Outcome) (uid host : String) (port : Nat)
    (g : GSt) : Response × GSt :=
  runTVRoute ω uid host port muteM
    "Mute command sent successfully" "Failed to send mute command" g

/-- `POST /api/tv/app/launch` (src/main.py lines 358-388).  `pkg` is the
`package_name` field of the JSON body, `none` when the body is missing or
lacks the field. -/
def launchAppRoute (ω : Nat → Outcome) (uid host : String) (port : Nat)
    (pkg : Option String) (g : GSt) : Response × GSt :=
  match pkg with
  | none =>
    ({ code := 400, status := "error", message := "Missing package_name parameter" }, g)
  | some p =>
    runTVRoute ω uid host port (fun ω s => launchAppM ω p s)
      ("App " ++ p ++ " launched successfully")
      ("Failed to launch app " ++ p) g

/-- `valid_directions` of the navigate route (src/main.py line 401). -/
def valid_directions : List String :=
  ["up", "down", "left", "right", "ok", "back", "home"]

/-- `POST /api/tv/navigate` (src/main.py lines 390-427).  `dir?` is the
`direction` field of the JSON body, `none` when the body is missing or
lacks the field.  Validation against `valid_directions` happens before
`get_tv_controller` is called. -/
def navigateRoute (ω : Nat → Outcome) (uid host : String) (port : Nat)
    (dir? : Option String) (g : GSt) : Response × GSt :=
  match dir? with
  | none =>
    ({ code := 400, status := "error", message := "Missing direction parameter" }, g)
  | some d =>
    if d ∉ valid_directions then
      ({ code := 400, status := "error",
         message := "Invalid direction. Must be one of: up, down, left, right, ok, back, home" }, g)
    else
      runTVRoute ω uid host port (fun ω s => navigateM ω d s)
        ("Navigate " ++ d ++ " command sent successfully")
        ("Failed to send navigate " ++ d ++ " command") g

/-- The fixed closed command vocabulary of the dispatcher. -/
inductive Command where
  | power
  | volumeUp
  | volumeDown
  | mute
  | navigate (direction : String)
  | launchApp (pkg : String)
deriving Repr, DecidableEq

/-- Dispatch of one recognized command through its route handler (body
fields present). -/
def dispatch (ω : Nat → Outcome) (cmd : Command) (uid host : String)
    (port : Nat) (g : GSt) : Response × GSt :=
  match cmd with
  | .power => powerRoute ω uid host port g
  | .volumeUp => volumeUpRoute ω uid host port g
  | .volumeDown => volumeDownRoute ω uid host port g
  | .mute => muteRoute ω uid host port g
  | .navigate d => navigateRoute ω uid host port (some d) g
  | .launchApp p => launchAppRoute ω uid host port (some p) g

/-- Transport-call observables: number of connect attempts in a trace. -/
def countConnect (tr : List TCall) : Nat :=
  tr.countP (fun t => match t with | .connect _ _ => true | _ => false)

/-- Number of shell calls in a trace (issued, whether or not they
completed) — every `device.shell(...)` round trip, probe included. -/
def countShell (tr : List TCall) : Nat :=
  tr.countP (fun t => match t with | .shell _ _ => true | _ => false)

/-- Number of instruction shell calls issued (any shell call other than
the `echo test` liveness probe), completed or raising. -/
def countInstrIssued (tr : List TCall) : Nat :=
  tr.countP (fun t => match t with
    | .shell c _ => c ≠ "echo test"
    | _ => false)

/-- Number of completed instruction writes: shell calls other than the
liveness probe that did not raise. -/
def countInstrWrites (tr : List TCall) : Nat :=
  tr.countP (fun t => match t with
    | .shell c ok => ok && c ≠ "echo test"
    | _ => false)

/-- Whether a connect-call outcome makes `TVController.connect` succeed:
no exception, a truthy handle, and a non-empty serial. -/
def connOk (o : Outcome) : Bool :=
  !o.raise && (match o.dev with
    | some serial => serial ≠ ""
    | none => false)

/-- A transport world where every call succeeds and connects return a
handle with serial `"serial1"`. -/
def oracleOk : Nat → Outcome := fun _ => { raise := false, dev := some "serial1" }

/-- A transport world where every call raises (device unreachable). -/
def oracleDown : Nat → Outcome := fun _ => { raise := true, dev := none }

/-- A world whose first call raises and every later call succeeds (a
failing liveness probe followed by a successful reconnect). -/
def oracleProbeFail : Nat → Outcome := fun n =>
  if n = 0 then { raise := true, dev := none } else { raise := false, dev := some "serial2" }

/-- A concrete controller with a cached (live-looking) device handle. -/
def ctrlCached : TVController := { host := "h", port := 5555, device := some "serial1" }

/-- A concrete method-execution state holding `ctrlCached`. -/
def sCached : St := { ctrl := ctrlCached, idx := 0, trace := [] }

/-- A concrete global state with an empty controller cache. -/
def gFresh : GSt := { cache := fun _ => none, idx := 0, trace := [] }

/-- A concrete global state whose cache holds `ctrlCached` for user `"u"`. -/
def gCached : GSt :=
  { cache := fun v => if v = "u" then some ctrlCached else none, idx := 0, trace := [] }

/-- A concrete authenticated identity. -/
def uiAlice : UserInfo :=
  { sub := "sub1", email := "alice@example.com", name := "Alice", picture := "" }

/-- A concrete empty session state. -/
def sess0 : SessionSt := { user_info := none, loggedIn := false }

/-- `1` for a method result `.ok true`, `0` otherwise. -/
def okBit : Except Unit Bool → Nat
  | .ok true => 1
  | _ => 0

/-- A command whose parameters pass the route-level validation (only
`navigate` validates anything). -/
def cmdOk : Command → Bool
  | .navigate d => decide (d ∈ valid_directions)
  | _ => true

/-- The single instruction string a recognized command sends (for
`navigate`, of a listed direction). -/
def cmdInstr : Command → String
  | .power => "input keyevent " ++ toString KEYCODE_POWER
  | .volumeUp => "input keyevent " ++ toString KEYCODE_VOLUME_UP
  | .volumeDown => "input keyevent " ++ toString KEYCODE_VOLUME_DOWN
  | .mute => "input keyevent " ++ toString KEYCODE_MUTE
  | .navigate d => "input keyevent " ++ toString ((keycode_map d).getD 0)
  | .launchApp p => "monkey -p " ++ p ++ " -c android.intent.category.LAUNCHER 1"

-- ## Helper lemmas

theorem countConnect_append (a b : List TCall) :
    countConnect (a ++ b) = countConnect a + countConnect b :=
  List.countP_append _ _ _

theorem countShell_append (a b : List TCall) :
    countShell (a ++ b) = countShell a + countShell b :=
  List.countP_append _ _ _

theorem countInstrIssued_append (a b : List TCall) :
    countInstrIssued (a ++ b) = countInstrIssued a + countInstrIssued b :=
  List.countP_append _ _ _

theorem countInstrWrites_append (a b : List TCall) :
    countInstrWrites (a ++ b) = countInstrWrites a + countInstrWrites b :=
  List.countP_append _ _ _

theorem countConnect_snoc_connect (tr : List TCall) (h : String) (p : Nat) :
    countConnect (tr ++ [.connect h p]) = countConnect tr + 1 := by
  simp [countConnect, List.countP_append, List.countP_cons]

theorem countConnect_snoc_shell (tr : List TCall) (c : String) (b : Bool) :
    countConnect (tr ++ [.shell c b]) = countConnect tr := by
  simp [countConnect, List.countP_append, List.countP_cons]

theorem countShell_snoc_connect (tr : List TCall) (h : String) (p : Nat) :
    countShell (tr ++ [.connect h p]) = countShell tr := by
  simp [countShell, List.countP_append, List.countP_cons]

theorem countShell_snoc_shell (tr : List TCall) (c : String) (b : Bool) :
    countShell (tr ++ [.shell c b]) = countShell tr + 1 := by
  simp [countShell, List.countP_append, List.countP_cons]

theorem countInstrIssued_snoc_connect (tr : List TCall) (h : String) (p : Nat) :
    countInstrIssued (tr ++ [.connect h p]) = countInstrIssued tr := by
  simp [countInstrIssued, List.countP_append, List.countP_cons]

theorem countInstrIssued_snoc_probe (tr : List TCall) (b : Bool) :
    countInstrIssued (tr ++ [.shell "echo test" b]) = countInstrIssued tr := by
  simp [countInstrIssued, List.countP_append, List.countP_cons]

theorem countInstrIssued_snoc_instr (tr : List TCall) (c : String) (b : Bool)
    (hc : c ≠ "echo test") :
    countInstrIssued (tr ++ [.shell c b]) = countInstrIssued tr + 1 := by
  simp [countInstrIssued, List.countP_append, List.countP_cons, hc]

theorem countInstrWrites_snoc_connect (tr : List TCall) (h : String) (p : Nat) :
    countInstrWrites (tr ++ [.connect h p]) = countInstrWrites tr := by
  simp [countInstrWrites, List.countP_append, List.countP_cons]

theorem countInstrWrites_snoc_probe (tr : List TCall) (b : Bool) :
    countInstrWrites (tr ++ [.shell "echo test" b]) = countInstrWrites tr := by
  simp [countInstrWrites, List.countP_append, List.countP_cons]

theorem countInstrWrites_snoc_instr (tr : List TCall) (c : String)
    (hc : c ≠ "echo test") :
    countInstrWrites (tr ++ [.shell c true]) = countInstrWrites tr + 1 := by
  simp [countInstrWrites, List.countP_append, List.countP_cons, hc]

theorem countInstrWrites_snoc_failed (tr : List TCall) (c : String) :
    countInstrWrites (tr ++ [.shell c false]) = countInstrWrites tr := by
  simp [countInstrWrites, List.countP_append, List.countP_cons]

/-- The keyevent instruction string is never the liveness-probe string:
their lengths already differ (`15 + |toString k|` versus `9`). -/
theorem keyevent_ne_probe (x : String) : ("input keyevent " ++ x) ≠ "echo test" := by
  intro h
  have hl := congrArg String.length h
  rw [String.length_append] at hl
  have h15 : "input keyevent ".length = 15 := rfl
  have h9 : "echo test".length = 9 := rfl
  omega

/-- The app-launch instruction string is never the liveness-probe string. -/
theorem monkey_ne_probe (x : String) :
    ("monkey -p " ++ x ++ " -c android.intent.category.LAUNCHER 1") ≠ "echo test" := by
  intro h
  have hl := congrArg String.length h
  rw [String.length_append, String.length_append] at hl
  have h10 : "monkey -p ".length = 10 := rfl
  have h38 : " -c android.intent.category.LAUNCHER 1".length = 38 := by decide
  have h9 : "echo test".length = 9 := rfl
  omega

/-- `TVController.connect` always returns a boolean: the body's
`try/except Exception` converts every transport exception. -/
theorem connectM_isOk (ω : Nat → Outcome) (s : St) :
    ∃ b s', connectM ω s = (.ok b, s') := by
  unfold connectM connectCall
  by_cases hr : (ω s.idx).raise
  · simp [hr]
  · rcases hdev : (ω s.idx).dev with _ | serial
    · simp [hr, hdev]
    · by_cases hser : serial = "" <;> simp [hr, hdev, hser]

/-- `TVController.ensure_connected` always returns a boolean: the bare
`except:` around the probe and `connect`'s own handler cover every path. -/
theorem ensureConnectedM_isOk (ω : Nat → Outcome) (s : St) :
    ∃ b s', ensureConnectedM ω s = (.ok b, s') := by
  unfold ensureConnectedM
  rcases hdev : s.ctrl.device with _ | serial
  · exact connectM_isOk ω s
  · unfold shellCall
    by_cases hr : (ω s.idx).raise
    · simp only [hr, if_true]
      exact connectM_isOk ω _
    · simp [hr]

/-- `TVController.send_keyevent` always returns a boolean. -/
theorem sendKeyeventM_isOk (ω : Nat → Outcome) (k : Nat) (s : St) :
    ∃ b s', sendKeyeventM ω k s = (.ok b, s') := by
  unfold sendKeyeventM
  obtain ⟨b, s1, h⟩ := ensureConnectedM_isOk ω s
  rw [h]
  cases b
  · exact ⟨false, s1, rfl⟩
  · unfold shellCall
    by_cases hr : (ω s1.idx).raise <;> simp [hr]

/-- `TVController.navigate` always returns a boolean. -/
theorem navigateM_isOk (ω : Nat → Outcome) (d : String) (s : St) :
    ∃ b s', navigateM ω d s = (.ok b, s') := by
  unfold navigateM
  rcases keycode_map d with _ | k
  · exact ⟨false, s, rfl⟩
  · exact sendKeyeventM_isOk ω k s

/-- `TVController.launch_app` always returns a boolean. -/
theorem launchAppM_isOk (ω : Nat → Outcome) (p : String) (s : St) :
    ∃ b s', launchAppM ω p s = (.ok b, s') := by
  unfold launchAppM
  obtain ⟨b, s1, h⟩ := ensureConnectedM_isOk ω s
  rw [h]
  cases b
  · exact ⟨false, s1, rfl⟩
  · unfold shellCall
    by_cases hr : (ω s1.idx).raise <;> simp [hr]

/-- Full characterization of `TVController.connect`: it returns
`connOk (ω s.idx)`, records one connect call, and stores the new device
handle exactly on success. -/
theorem connectM_eq (ω : Nat → Outcome) (s : St) :
    connectM ω s =
      (.ok (connOk (ω s.idx)),
       { ctrl := if connOk (ω s.idx) then { s.ctrl with device := (ω s.idx).dev }
                 else s.ctrl,
         idx := s.idx + 1,
         trace := s.trace ++ [.connect s.ctrl.host s.ctrl.port] }) := by
  unfold connectM connectCall connOk
  by_cases hr : (ω s.idx).raise
  · simp [hr]
  · rcases hdev : (ω s.idx).dev with _ | serial
    · simp [hr, hdev]
    · by_cases hser : serial = "" <;> simp [hr, hdev, hser]

/-- `ensure_connected` with no cached handle is just `connect`. -/
theorem ensureConnectedM_none (ω : Nat → Outcome) (s : St)
    (h : s.ctrl.device = none) : ensureConnectedM ω s = connectM ω s := by
  unfold ensureConnectedM
  rw [h]

/-- `ensure_connected` with a cached handle and a non-raising probe
returns `True` after the single probe shell call. -/
theorem ensureConnectedM_probeOk (ω : Nat → Outcome) (s : St) (ser : String)
    (h : s.ctrl.device = some ser) (hr : (ω s.idx).raise = false) :
    ensureConnectedM ω s =
      (.ok true, { s with idx := s.idx + 1,
                          trace := s.trace ++ [.shell "echo test" true] }) := by
  unfold ensureConnectedM shellCall
  rw [h]
  simp [hr]

/-- `ensure_connected` with a cached handle and a raising probe is one
`connect` call after the recorded failed probe. -/
theorem ensureConnectedM_probeFail (ω : Nat → Outcome) (s : St) (ser : String)
    (h : s.ctrl.device = some ser) (hr : (ω s.idx).raise = true) :
    ensureConnectedM ω s =
      connectM ω { s with idx := s.idx + 1,
                          trace := s.trace ++ [.shell "echo test" false] } := by
  unfold ensureConnectedM shellCall
  rw [h]
  simp [hr]

/-- `ensure_connected` never performs a completed instruction write. -/
theorem ensureConnectedM_countWrites (ω : Nat → Outcome) (s : St) :
    countInstrWrites (ensureConnectedM ω s).2.trace = countInstrWrites s.trace := by
  rcases hdev : s.ctrl.device with _ | ser
  · rw [ensureConnectedM_none ω s hdev, connectM_eq]
    by_cases hc : connOk (ω s.idx) <;>
      simp [hc, countInstrWrites_snoc_connect]
  · by_cases hr : (ω s.idx).raise
    · rw [ensureConnectedM_probeFail ω s ser hdev hr, connectM_eq]
      by_cases hc : connOk (ω (s.idx + 1)) <;>
        simp [hc, countInstrWrites_snoc_connect, countInstrWrites_append,
              countInstrWrites, List.countP_cons]
    · rw [ensureConnectedM_probeOk ω s ser hdev (by simpa using hr)]
      simp [countInstrWrites_snoc_probe]

/-- `send_keyevent` completes exactly one instruction write when it
returns `True` and none when it returns `False`. -/
theorem sendKeyeventM_countWrites (ω : Nat → Outcome) (k : Nat) (s : St) :
    countInstrWrites (sendKeyeventM ω k s).2.trace =
      countInstrWrites s.trace + okBit (sendKeyeventM ω k s).1 := by
  unfold sendKeyeventM
  obtain ⟨b, s1, h⟩ := ensureConnectedM_isOk ω s
  have hcnt : countInstrWrites s1.trace = countInstrWrites s.trace := by
    have := ensureConnectedM_countWrites ω s
    rw [h] at this
    exact this
  rw [h]
  cases b
  · simp [hcnt, okBit]
  · unfold shellCall
    by_cases hr : (ω s1.idx).raise
    · simp [hr, hcnt, okBit, countInstrWrites_snoc_failed]
    · simp [hr, hcnt, okBit,
        countInstrWrites_snoc_instr _ _ (keyevent_ne_probe (toString k))]

/-- `launch_app` completes exactly one instruction write when it returns
`True` and none when it returns `False`. -/
theorem launchAppM_countWrites (ω : Nat → Outcome) (p : String) (s : St) :
    countInstrWrites (launchAppM ω p s).2.trace =
      countInstrWrites s.trace + okBit (launchAppM ω p s).1 := by
  unfold launchAppM
  obtain ⟨b, s1, h⟩ := ensureConnectedM_isOk ω s
  have hcnt : countInstrWrites s1.trace = countInstrWrites s.trace := by
    have := ensureConnectedM_countWrites ω s
    rw [h] at this
    exact this
  rw [h]
  cases b
  · simp [hcnt, okBit]
  · unfold shellCall
    by_cases hr : (ω s1.idx).raise
    · simp [hr, hcnt, okBit, countInstrWrites_snoc_failed]
    · simp [hr, hcnt, okBit, countInstrWrites_snoc_instr _ _ (monkey_ne_probe p)]

/-- `navigate` completes exactly one instruction write when it returns
`True` and none when it returns `False` (an invalid direction changes
nothing). -/
theorem navigateM_countWrites (ω : Nat → Outcome) (d : String) (s : St) :
    countInstrWrites (navigateM ω d s).2.trace =
      countInstrWrites s.trace + okBit (navigateM ω d s).1 := by
  unfold navigateM
  rcases keycode_map d with _ | k
  · simp [okBit]
  · exact sendKeyeventM_countWrites ω k s

/-- A cache hit returns the cached controller object unchanged and
touches nothing. -/
theorem getTVController_cacheHit (ω : Nat → Outcome) (uid host : String)
    (port : Nat) (g : GSt) (c : TVController) (h : g.cache uid = some c) :
    getTVController ω uid host port g = (some c, g) := by
  unfold getTVController
  rw [h]

/-- Full characterization of a cache miss: one connect call; on success
the fresh controller (holding the returned handle) is cached for `uid`,
on failure nothing is cached and `None` is returned. -/
theorem getTVController_cacheMiss (ω : Nat → Outcome) (uid host : String)
    (port : Nat) (g : GSt) (h : g.cache uid = none) :
    getTVController ω uid host port g =
      if connOk (ω g.idx) then
        (some { host := host, port := port, device := (ω g.idx).dev },
         { cache := fun v => if v = uid then
               some { host := host, port := port, device := (ω g.idx).dev }
             else g.cache v,
           idx := g.idx + 1, trace := g.trace ++ [.connect host port] })
      else
        (none, { g with idx := g.idx + 1, trace := g.trace ++ [.connect host port] }) := by
  unfold getTVController GSt.toSt GSt.writeBack
  rw [h]
  dsimp only
  rw [connectM_eq]
  by_cases hc : connOk (ω g.idx) <;> simp [hc]

/-- `get_tv_controller` never performs an instruction write. -/
theorem getTVController_countWrites (ω : Nat → Outcome) (uid host : String)
    (port : Nat) (g : GSt) :
    countInstrWrites (getTVController ω uid host port g).2.trace =
      countInstrWrites g.trace := by
  rcases h : g.cache uid with _ | c
  · rw [getTVController_cacheMiss ω uid host port g h]
    by_cases hc : connOk (ω g.idx) <;> simp [hc, countInstrWrites_snoc_connect]
  · rw [getTVController_cacheHit ω uid host port g c h]

/-- The shared route tail reports `success` exactly when the controller
method returned `True`, and the completed instruction writes grow by one
exactly in that case. -/
theorem runTVRoute_countWrites (ω : Nat → Outcome) (uid host : String)
    (port : Nat) (method : (Nat → Outcome) → St → Except Unit Bool × St)
    (okMsg errMsg : String) (g : GSt)
    (hm : ∀ s, countInstrWrites (method ω s).2.trace =
            countInstrWrites s.trace + okBit (method ω s).1)
    (hok : ∀ s, ∃ b s', method ω s = (.ok b, s')) :
    ((runTVRoute ω uid host port method okMsg errMsg g).1.status = "success" →
       countInstrWrites (runTVRoute ω uid host port method okMsg errMsg g).2.trace =
         countInstrWrites g.trace + 1) ∧
    ((runTVRoute ω uid host port method okMsg errMsg g).1.status = "error" →
       countInstrWrites (runTVRoute ω uid host port method okMsg errMsg g).2.trace =
         countInstrWrites g.trace) := by
  unfold runTVRoute
  rcases hget : getTVController ω uid host port g with ⟨copt, g1⟩
  have hg1 : countInstrWrites g1.trace = countInstrWrites g.trace := by
    have h := getTVController_countWrites ω uid host port g
    rw [hget] at h
    exact h
  rcases copt with _ | c
  · constructor
    · intro h
      simp at h
    · intro _
      exact hg1
  · dsimp only
    obtain ⟨b, s', hme⟩ := hok (g1.toSt c)
    have hcount := hm (g1.toSt c)
    rw [hme] at hcount
    dsimp only at hcount
    rw [hme]
    have htoSt : (g1.toSt c).trace = g1.trace := rfl
    cases b
    · constructor
      · intro h
        simp at h
      · intro _
        simp only [GSt.writeBack]
        rw [hcount, htoSt, hg1]
        simp [okBit]
    · constructor
      · intro _
        simp only [GSt.writeBack]
        rw [hcount, htoSt, hg1]
        simp [okBit]
      · intro h
        simp at h

/-- C9.  Every `TVController` operation — `connect`, `ensure_connected`,
`send_keyevent`, `navigate`, `launch_app` and the keyevent wrappers
`power`, `volume_up`, `volume_down`, `mute` — catches every transport
exception and returns a boolean: for every transport behavior `ω` and
every state, the result is `.ok b` for some boolean `b`, never a
propagating exception. -/
theorem tvController_no_exception_escapes (ω : Nat → Outcome) (k : Nat)
    (d p : String) (s : St) :
    (∃ b s', connectM ω s = (.ok b, s')) ∧
    (∃ b s', ensureConnectedM ω s = (.ok b, s')) ∧
    (∃ b s', sendKeyeventM ω k s = (.ok b, s')) ∧
    (∃ b s', navigateM ω d s = (.ok b, s')) ∧
    (∃ b s', launchAppM ω p s = (.ok b, s')) ∧
    (∃ b s', powerM ω s = (.ok b, s')) ∧
    (∃ b s', volumeUpM ω s = (.ok b, s')) ∧
    (∃ b s', volumeDownM ω s = (.ok b, s')) ∧
    (∃ b s', muteM ω s = (.ok b, s')) :=
  ⟨connectM_isOk ω s, ensureConnectedM_isOk ω s, sendKeyeventM_isOk ω k s,
   navigateM_isOk ω d s, launchAppM_isOk ω p s, sendKeyeventM_isOk ω _ s,
   sendKeyeventM_isOk ω _ s, sendKeyeventM_isOk ω _ s, sendKeyeventM_isOk ω _ s⟩


/-- An unlisted direction falsifies every branch of `keycode_map`. -/
theorem keycode_map_eq_none (d : String) (hd : d ∉ valid_directions) :
    keycode_map d = none := by
  unfold keycode_map
  simp [valid_directions] at hd
  obtain ⟨h1, h2, h3, h4, h5, h6, h7⟩ := hd
  simp [h1, h2, h3, h4, h5, h6, h7]

/-- C1 (amended).  For every dispatch of a recognized command, counting
completed instruction writes (shell calls other than the `echo test`
liveness probe that did not raise): a dispatch reporting `success` adds
exactly one completed instruction write, and a dispatch reporting
`error` adds none. -/
theorem dispatch_one_write_per_success (ω : Nat → Outcome) (cmd : Command)
    (uid host : String) (port : Nat) (g : GSt) :
    ((dispatch ω cmd uid host port g).1.status = "success" →
       countInstrWrites (dispatch ω cmd uid host port g).2.trace =
         countInstrWrites g.trace + 1) ∧
    ((dispatch ω cmd uid host port g).1.status = "error" →
       countInstrWrites (dispatch ω cmd uid host port g).2.trace =
         countInstrWrites g.trace) := by
  cases cmd with
  | power =>
    exact runTVRoute_countWrites ω uid host port powerM _ _ g
      (fun s => sendKeyeventM_countWrites ω KEYCODE_POWER s)
      (fun s => sendKeyeventM_isOk ω KEYCODE_POWER s)
  | volumeUp =>
    exact runTVRoute_countWrites ω uid host port volumeUpM _ _ g
      (fun s => sendKeyeventM_countWrites ω KEYCODE_VOLUME_UP s)
      (fun s => sendKeyeventM_isOk ω KEYCODE_VOLUME_UP s)
  | volumeDown =>
    exact runTVRoute_countWrites ω uid host port volumeDownM _ _ g
      (fun s => sendKeyeventM_countWrites ω KEYCODE_VOLUME_DOWN s)
      (fun s => sendKeyeventM_isOk ω KEYCODE_VOLUME_DOWN s)
  | mute =>
    exact runTVRoute_countWrites ω uid host port muteM _ _ g
      (fun s => sendKeyeventM_countWrites ω KEYCODE_MUTE s)
      (fun s => sendKeyeventM_isOk ω KEYCODE_MUTE s)
  | navigate d =>
    dsimp only [dispatch]
    unfold navigateRoute
    dsimp only
    by_cases hd : d ∈ valid_directions
    · simp only [hd, not_true_eq_false, if_false]
      exact runTVRoute_countWrites ω uid host port (fun ω s => navigateM ω d s) _ _ g
        (fun s => navigateM_countWrites ω d s)
        (fun s => navigateM_isOk ω d s)
    · simp only [hd, not_false_eq_true, if_true]
      constructor
      · intro h
        simp at h
      · intro _
        trivial
  | launchApp p =>
    dsimp only [dispatch]
    unfold launchAppRoute
    dsimp only
    exact runTVRoute_countWrites ω uid host port (fun ω s => launchAppM ω p s) _ _ g
      (fun s => launchAppM_countWrites ω p s)
      (fun s => launchAppM_isOk ω p s)

/-- C1, counterexample to the claim as stated.  Counting every shell call
over the session's connection — the liveness probe included — as a
transport write, a successful `power` dispatch through a cached live
session performs two writes (the probe and the keyevent), not exactly
one. -/
theorem dispatch_probe_also_counts :
    (dispatch oracleOk .power "u" "h" 5555 gCached).1.status = "success" ∧
    countShell (dispatch oracleOk .power "u" "h" 5555 gCached).2.trace ≠ 1 := by
  decide

/-- Witness for C1 (amended): a concrete successful power dispatch adds
exactly one completed instruction write. -/
theorem dispatch_one_write_per_success_witness :
    countInstrWrites (dispatch oracleOk .power "u" "h" 5555 gCached).2.trace =
      countInstrWrites gCached.trace + 1 :=
  (dispatch_one_write_per_success oracleOk .power "u" "h" 5555 gCached).1 (by decide)

/-- C3.  Evaluation of the OAuth callback at the failing input: with the
`ALLOWED_EMAILS` environment variable unset (or set to the empty
string), `os.getenv('ALLOWED_EMAILS', '').split(',')` yields `[""]`, a
non-empty and hence truthy list, so the callback rejects an
authenticated identity with a normal email address with 403 instead of
admitting everyone. -/
theorem empty_allowlist_rejects_eval :
    ALLOWED_EMAILS none = [""] ∧ ALLOWED_EMAILS (some "") = [""] ∧
    (callback (ALLOWED_EMAILS none) (some uiAlice) sess0).1.code = 403 ∧
    (callback (ALLOWED_EMAILS none) (some uiAlice) sess0).1.status = "error" ∧
    (callback (ALLOWED_EMAILS none) (some uiAlice) sess0).2 = sess0 := by
  decide

/-- C4.  An identity whose email is absent from a non-empty allow-list
is rejected by the callback with HTTP 403, and the session state is left
exactly as it was: no `session['user_info']` is stored and no login is
performed. -/
theorem callback_rejects_unlisted (allowed : List String) (ui : UserInfo)
    (sess : SessionSt) (hne : allowed ≠ []) (hmem : ui.email ∉ allowed) :
    callback allowed (some ui) sess =
      ({ code := 403, status := "error", message := "Unauthorized email address" },
       sess) := by
  unfold callback
  simp [hne, hmem]

/-- Witness for C4 at a concrete allow-list and identity. -/
theorem callback_rejects_unlisted_witness :
    callback ["alice@example.com"]
        (some { sub := "s2", email := "bob@example.com", name := "Bob", picture := "" })
        sess0 =
      ({ code := 403, status := "error", message := "Unauthorized email address" },
       sess0) :=
  callback_rejects_unlisted ["alice@example.com"]
    { sub := "s2", email := "bob@example.com", name := "Bob", picture := "" }
    sess0 (by decide) (by decide)

/-- C7.  A direction outside the closed set fails locally: the navigate
route answers 400 leaving the global state (cache, oracle cursor and
transport trace) untouched, and `TVController.navigate` returns `False`
from any state without any transport call. -/
theorem navigate_invalid_direction_local (ω : Nat → Outcome) (uid host : String)
    (port : Nat) (d : String) (g : GSt) (s : St) (hd : d ∉ valid_directions) :
    navigateRoute ω uid host port (some d) g =
      ({ code := 400, status := "error",
         message := "Invalid direction. Must be one of: up, down, left, right, ok, back, home" },
       g) ∧
    navigateM ω d s = (.ok false, s) := by
  constructor
  · unfold navigateRoute
    simp [hd]
  · unfold navigateM
    rw [keycode_map_eq_none d hd]

/-- Witness for C7 at the concrete direction `"diagonal"`. -/
theorem navigate_invalid_direction_local_witness :
    navigateRoute oracleOk "u" "h" 5555 (some "diagonal") gFresh =
      ({ code := 400, status := "error",
         message := "Invalid direction. Must be one of: up, down, left, right, ok, back, home" },
       gFresh) ∧
    navigateM oracleOk "diagonal" sCached = (.ok false, sCached) :=
  navigate_invalid_direction_local oracleOk "u" "h" 5555 "diagonal" gFresh sCached
    (by decide)


theorem connOk_of_raise (o : Outcome) (h : o.raise = true) : connOk o = false := by
  unfold connOk
  simp [h]

/-- A connect-call outcome that succeeds carries no exception and a
handle with a non-empty serial. -/
theorem connOk_dev (o : Outcome) (h : connOk o = true) :
    o.raise = false ∧ ∃ ser, o.dev = some ser ∧ ser ≠ "" := by
  unfold connOk at h
  rcases hdev : o.dev with _ | ser <;> rw [hdev] at h
  · simp at h
  · simp at h
    exact ⟨h.1, ser, rfl, h.2⟩

/-- With an unreachable transport (every call raises),
`ensure_connected` returns `False` and leaves the controller's cached
handle as it was. -/
theorem ensureConnectedM_down (ω : Nat → Outcome) (s : St)
    (hω : ∀ n, (ω n).raise = true) :
    (ensureConnectedM ω s).1 = .ok false ∧ (ensureConnectedM ω s).2.ctrl = s.ctrl := by
  rcases hdev : s.ctrl.device with _ | ser
  · rw [ensureConnectedM_none ω s hdev, connectM_eq, connOk_of_raise _ (hω s.idx)]
    simp
  · rw [ensureConnectedM_probeFail ω s ser hdev (hω s.idx), connectM_eq]
    rw [connOk_of_raise _ (hω _)]
    simp

/-- With an unreachable transport, `send_keyevent` returns `False`
and the controller is unchanged. -/
theorem sendKeyeventM_down (ω : Nat → Outcome) (k : Nat) (s : St)
    (hω : ∀ n, (ω n).raise = true) :
    (sendKeyeventM ω k s).1 = .ok false ∧ (sendKeyeventM ω k s).2.ctrl = s.ctrl := by
  unfold sendKeyeventM
  have h := ensureConnectedM_down ω s hω
  rcases hres : ensureConnectedM ω s with ⟨e, s1⟩
  rw [hres] at h
  obtain ⟨he, hctrl⟩ := h
  dsimp at he hctrl
  subst he
  exact ⟨rfl, hctrl⟩

/-- C5.  `POST /api/tv/power` while the device endpoint is unreachable
(every transport call raises): the response is HTTP 500 with an error
status, the controller cache is left exactly as it was (in particular a
user with no entry still has none), and any entry the cache holds for
the user fails its liveness probe under the unreachable transport — the
cache holds no valid session. -/
theorem power_unreachable_500 (ω : Nat → Outcome) (uid host : String)
    (port : Nat) (g : GSt) (hω : ∀ n, (ω n).raise = true) :
    (powerRoute ω uid host port g).1.code = 500 ∧
    (powerRoute ω uid host port g).1.status = "error" ∧
    (powerRoute ω uid host port g).2.cache = g.cache ∧
    (g.cache uid = none → (powerRoute ω uid host port g).2.cache uid = none) ∧
    (∀ c idx tr, (powerRoute ω uid host port g).2.cache uid = some c →
       (ensureConnectedM ω { ctrl := c, idx := idx, trace := tr }).1 = .ok false) := by
  have hmain : (powerRoute ω uid host port g).1.code = 500 ∧
      (powerRoute ω uid host port g).1.status = "error" ∧
      (powerRoute ω uid host port g).2.cache = g.cache := by
    unfold powerRoute runTVRoute
    rcases hcache : g.cache uid with _ | c
    · rw [getTVController_cacheMiss ω uid host port g hcache,
          connOk_of_raise _ (hω g.idx)]
      simp
    · rw [getTVController_cacheHit ω uid host port g c hcache]
      dsimp only
      have h := sendKeyeventM_down ω KEYCODE_POWER (g.toSt c) hω
      rcases hres : powerM ω (g.toSt c) with ⟨e, s1⟩
      rw [show powerM ω (g.toSt c) = sendKeyeventM ω KEYCODE_POWER (g.toSt c) from rfl]
        at hres
      rw [hres] at h
      obtain ⟨he, hctrl⟩ := h
      dsimp at he hctrl
      subst he
      refine ⟨rfl, rfl, ?_⟩
      dsimp only [GSt.writeBack]
      funext v
      by_cases hv : v = uid
      · subst hv
        simp [hctrl, hcache, GSt.toSt]
      · simp [hv]
  refine ⟨hmain.1, hmain.2.1, hmain.2.2, ?_, ?_⟩
  · intro hnone
    rw [hmain.2.2]
    exact hnone
  · intro c idx tr _
    exact (ensureConnectedM_down ω { ctrl := c, idx := idx, trace := tr } hω).1

/-- Witness for C5 at a concrete unreachable world and empty cache. -/
theorem power_unreachable_500_witness :
    (powerRoute oracleDown "u" "h" 5555 gFresh).1.code = 500 ∧
    (powerRoute oracleDown "u" "h" 5555 gFresh).2.cache "u" = none := by
  have h := power_unreachable_500 oracleDown "u" "h" 5555 gFresh (fun n => rfl)
  exact ⟨h.1, h.2.2.2.1 rfl⟩


/-- Every listed direction has a key code. -/
theorem keycode_map_of_mem (d : String) (hd : d ∈ valid_directions) :
    ∃ k, keycode_map d = some k := by
  simp [valid_directions] at hd
  rcases hd with rfl | rfl | rfl | rfl | rfl | rfl | rfl <;> exact ⟨_, rfl⟩

/-- `send_keyevent` after a raising liveness probe: exactly one reconnect
attempt; when it succeeds the keyevent instruction is issued, when it
fails the method returns `False` with no instruction issued. -/
theorem sendKeyeventM_probeFail_spec (ω : Nat → Outcome) (k : Nat) (s : St)
    (ser : String) (hdev : s.ctrl.device = some ser)
    (hr : (ω s.idx).raise = true) :
    countConnect (sendKeyeventM ω k s).2.trace = countConnect s.trace + 1 ∧
    (connOk (ω (s.idx + 1)) = true →
       countInstrIssued (sendKeyeventM ω k s).2.trace = countInstrIssued s.trace + 1) ∧
    (connOk (ω (s.idx + 1)) = false →
       (sendKeyeventM ω k s).1 = .ok false ∧
       countInstrIssued (sendKeyeventM ω k s).2.trace = countInstrIssued s.trace) := by
  unfold sendKeyeventM
  rw [ensureConnectedM_probeFail ω s ser hdev hr, connectM_eq]
  dsimp only
  have hki : ("input keyevent " ++ toString k) ≠ "echo test" :=
    keyevent_ne_probe (toString k)
  by_cases hc : connOk (ω (s.idx + 1))
  · rw [hc]
    dsimp only
    unfold shellCall
    by_cases hw : (ω (s.idx + 1 + 1)).raise <;>
      simp [hc, hw, hki, countConnect_append, countInstrIssued_append,
        countConnect, countInstrIssued, List.countP_cons, List.countP_nil]
  · rw [show connOk (ω (s.idx + 1)) = false from by simpa using hc]
    dsimp only
    simp [hc, countConnect_append, countInstrIssued_append,
      countConnect, countInstrIssued, List.countP_cons, List.countP_nil]

/-- `launch_app` after a raising liveness probe, same shape as
`sendKeyeventM_probeFail_spec`. -/
theorem launchAppM_probeFail_spec (ω : Nat → Outcome) (p : String) (s : St)
    (ser : String) (hdev : s.ctrl.device = some ser)
    (hr : (ω s.idx).raise = true) :
    countConnect (launchAppM ω p s).2.trace = countConnect s.trace + 1 ∧
    (connOk (ω (s.idx + 1)) = true →
       countInstrIssued (launchAppM ω p s).2.trace = countInstrIssued s.trace + 1) ∧
    (connOk (ω (s.idx + 1)) = false →
       (launchAppM ω p s).1 = .ok false ∧
       countInstrIssued (launchAppM ω p s).2.trace = countInstrIssued s.trace) := by
  unfold launchAppM
  rw [ensureConnectedM_probeFail ω s ser hdev hr, connectM_eq]
  dsimp only
  have hki : ("monkey -p " ++ p ++
      " -c android.intent.category.LAUNCHER 1") ≠ "echo test" :=
    monkey_ne_probe p
  by_cases hc : connOk (ω (s.idx + 1))
  · rw [hc]
    dsimp only
    unfold shellCall
    by_cases hw : (ω (s.idx + 1 + 1)).raise <;>
      simp [hc, hw, hki, countConnect_append, countInstrIssued_append,
        countConnect, countInstrIssued, List.countP_cons, List.countP_nil]
  · rw [show connOk (ω (s.idx + 1)) = false from by simpa using hc]
    dsimp only
    simp [hc, countConnect_append, countInstrIssued_append,
      countConnect, countInstrIssued, List.countP_cons, List.countP_nil]

/-- Route tail under a cached controller whose probe raises: lifts a
method-level probe-fail specification to the HTTP response. -/
theorem runTVRoute_probeFail (ω : Nat → Outcome) (uid host : String)
    (port : Nat) (method : (Nat → Outcome) → St → Except Unit Bool × St)
    (okMsg errMsg : String) (g : GSt) (c : TVController)
    (hcache : g.cache uid = some c)
    (hspec : countConnect (method ω (g.toSt c)).2.trace = countConnect g.trace + 1 ∧
      (connOk (ω (g.idx + 1)) = true →
         countInstrIssued (method ω (g.toSt c)).2.trace = countInstrIssued g.trace + 1) ∧
      (connOk (ω (g.idx + 1)) = false →
         (method ω (g.toSt c)).1 = .ok false ∧
         countInstrIssued (method ω (g.toSt c)).2.trace = countInstrIssued g.trace))
    (hok : ∃ b s', method ω (g.toSt c) = (.ok b, s')) :
    countConnect (runTVRoute ω uid host port method okMsg errMsg g).2.trace =
      countConnect g.trace + 1 ∧
    (connOk (ω (g.idx + 1)) = true →
       countInstrIssued (runTVRoute ω uid host port method okMsg errMsg g).2.trace =
         countInstrIssued g.trace + 1) ∧
    (connOk (ω (g.idx + 1)) = false →
       (runTVRoute ω uid host port method okMsg errMsg g).1.status = "error" ∧
       (runTVRoute ω uid host port method okMsg errMsg g).1.code = 500 ∧
       countInstrIssued (runTVRoute ω uid host port method okMsg errMsg g).2.trace =
         countInstrIssued g.trace) := by
  unfold runTVRoute
  rw [getTVController_cacheHit ω uid host port g c hcache]
  dsimp only
  obtain ⟨b, s', hres⟩ := hok
  rw [hres] at hspec ⊢
  dsimp only at hspec
  obtain ⟨h1, h2, h3⟩ := hspec
  cases b
  · refine ⟨h1, h2, ?_⟩
    intro hc
    exact ⟨rfl, rfl, (h3 hc).2⟩
  · refine ⟨h1, h2, ?_⟩
    intro hc
    exact absurd (h3 hc).1 (by simp)

/-- C2.  A dispatch through a cached session whose liveness probe raises
performs exactly one reconnect (one connect call appears in the trace);
if the reconnect succeeds the command proceeds to issue its instruction
(one instruction shell call), and if it fails the dispatch answers a
500 connection-failure error having issued no instruction call and no
second connect. -/
theorem dispatch_single_reconnect (ω : Nat → Outcome) (cmd : Command)
    (uid host : String) (port : Nat) (g : GSt) (c : TVController) (ser : String)
    (hcache : g.cache uid = some c) (hdev : c.device = some ser)
    (hcmd : cmdOk cmd = true) (hr : (ω g.idx).raise = true) :
    countConnect (dispatch ω cmd uid host port g).2.trace = countConnect g.trace + 1 ∧
    (connOk (ω (g.idx + 1)) = true →
       countInstrIssued (dispatch ω cmd uid host port g).2.trace =
         countInstrIssued g.trace + 1) ∧
    (connOk (ω (g.idx + 1)) = false →
       (dispatch ω cmd uid host port g).1.status = "error" ∧
       (dispatch ω cmd uid host port g).1.code = 500 ∧
       countInstrIssued (dispatch ω cmd uid host port g).2.trace =
         countInstrIssued g.trace) := by
  cases cmd with
  | power =>
    exact runTVRoute_probeFail ω uid host port powerM _ _ g c hcache
      (sendKeyeventM_probeFail_spec ω KEYCODE_POWER (g.toSt c) ser hdev hr)
      (sendKeyeventM_isOk ω KEYCODE_POWER (g.toSt c))
  | volumeUp =>
    exact runTVRoute_probeFail ω uid host port volumeUpM _ _ g c hcache
      (sendKeyeventM_probeFail_spec ω KEYCODE_VOLUME_UP (g.toSt c) ser hdev hr)
      (sendKeyeventM_isOk ω KEYCODE_VOLUME_UP (g.toSt c))
  | volumeDown =>
    exact runTVRoute_probeFail ω uid host port volumeDownM _ _ g c hcache
      (sendKeyeventM_probeFail_spec ω KEYCODE_VOLUME_DOWN (g.toSt c) ser hdev hr)
      (sendKeyeventM_isOk ω KEYCODE_VOLUME_DOWN (g.toSt c))
  | mute =>
    exact runTVRoute_probeFail ω uid host port muteM _ _ g c hcache
      (sendKeyeventM_probeFail_spec ω KEYCODE_MUTE (g.toSt c) ser hdev hr)
      (sendKeyeventM_isOk ω KEYCODE_MUTE (g.toSt c))
  | navigate d =>
    have hd : d ∈ valid_directions := of_decide_eq_true hcmd
    obtain ⟨k, hk⟩ := keycode_map_of_mem d hd
    have hnav : ∀ s, navigateM ω d s = sendKeyeventM ω k s := by
      intro s
      unfold navigateM
      rw [hk]
    dsimp only [dispatch]
    unfold navigateRoute
    dsimp only
    simp only [hd, not_true_eq_false, if_false]
    refine runTVRoute_probeFail ω uid host port (fun ω s => navigateM ω d s) _ _ g c
      hcache ?_ ?_
    · simp only [hnav]
      exact sendKeyeventM_probeFail_spec ω k (g.toSt c) ser hdev hr
    · simp only [hnav]
      exact sendKeyeventM_isOk ω k (g.toSt c)
  | launchApp p =>
    dsimp only [dispatch]
    unfold launchAppRoute
    dsimp only
    exact runTVRoute_probeFail ω uid host port (fun ω s => launchAppM ω p s) _ _ g c
      hcache
      (launchAppM_probeFail_spec ω p (g.toSt c) ser hdev hr)
      (launchAppM_isOk ω p (g.toSt c))

/-- Witness for C2: a concrete probe-failing world over a cached session;
the reconnect succeeds there and exactly one connect call is recorded. -/
theorem dispatch_single_reconnect_witness :
    countConnect (dispatch oracleProbeFail .power "u" "h" 5555 gCached).2.trace =
      countConnect gCached.trace + 1 ∧
    countInstrIssued (dispatch oracleProbeFail .power "u" "h" 5555 gCached).2.trace =
      countInstrIssued gCached.trace + 1 := by
  have h := dispatch_single_reconnect oracleProbeFail .power "u" "h" 5555 gCached
    ctrlCached "serial1" (by decide) (by decide) (by decide) (by decide)
  exact ⟨h.1, h.2.1 (by decide)⟩


/-- `send_keyevent` on a cached handle with a succeeding probe: the probe
and then the keyevent instruction, nothing else. -/
theorem sendKeyeventM_probeOk_trace (ω : Nat → Outcome) (k : Nat) (s : St)
    (ser : String) (hdev : s.ctrl.device = some ser)
    (hpr : (ω s.idx).raise = false) :
    ∃ b, (sendKeyeventM ω k s).2.trace =
      s.trace ++ [.shell "echo test" true,
                  .shell ("input keyevent " ++ toString k) b] := by
  unfold sendKeyeventM
  rw [ensureConnectedM_probeOk ω s ser hdev hpr]
  dsimp only
  unfold shellCall
  by_cases hw : (ω (s.idx + 1)).raise
  · refine ⟨false, ?_⟩
    simp [hw]
  · refine ⟨true, ?_⟩
    simp [hw]

/-- `launch_app` on a cached handle with a succeeding probe: the probe
and then the launcher-intent instruction, nothing else. -/
theorem launchAppM_probeOk_trace (ω : Nat → Outcome) (p : String) (s : St)
    (ser : String) (hdev : s.ctrl.device = some ser)
    (hpr : (ω s.idx).raise = false) :
    ∃ b, (launchAppM ω p s).2.trace =
      s.trace ++ [.shell "echo test" true,
                  .shell ("monkey -p " ++ p ++
                    " -c android.intent.category.LAUNCHER 1") b] := by
  unfold launchAppM
  rw [ensureConnectedM_probeOk ω s ser hdev hpr]
  dsimp only
  unfold shellCall
  by_cases hw : (ω (s.idx + 1)).raise
  · refine ⟨false, ?_⟩
    simp [hw]
  · refine ⟨true, ?_⟩
    simp [hw]

/-- Route tail for a cache miss with a succeeding connect and probe: the
transport sees exactly one connect, the probe, then the method's single
instruction. -/
theorem runTVRoute_fresh_trace (ω : Nat → Outcome) (uid host : String)
    (port : Nat) (method : (Nat → Outcome) → St → Except Unit Bool × St)
    (okMsg errMsg instr : String) (g : GSt)
    (hmiss : g.cache uid = none) (hconn : connOk (ω g.idx) = true)
    (htr : ∀ s ser, s.ctrl.device = some ser → (ω s.idx).raise = false →
        ∃ b, (method ω s).2.trace =
          s.trace ++ [.shell "echo test" true, .shell instr b])
    (hok : ∀ s, ∃ b s', method ω s = (.ok b, s'))
    (hprobe : (ω (g.idx + 1)).raise = false) :
    ∃ b, (runTVRoute ω uid host port method okMsg errMsg g).2.trace =
      g.trace ++ [.connect host port, .shell "echo test" true, .shell instr b] := by
  unfold runTVRoute
  rw [getTVController_cacheMiss ω uid host port g hmiss]
  rw [if_pos hconn]
  dsimp only [GSt.toSt]
  obtain ⟨hraise, ser, hdev, hser⟩ := connOk_dev _ hconn
  set s1 : St := { ctrl := { host := host, port := port, device := (ω g.idx).dev },
                   idx := g.idx + 1,
                   trace := g.trace ++ [.connect host port] } with hs1
  obtain ⟨b, htrace⟩ := htr s1 ser (by rw [hs1]; exact hdev) (by rw [hs1]; exact hprobe)
  obtain ⟨b2, s', hres⟩ := hok s1
  rw [hres] at htrace
  rw [hres]
  cases b2 <;>
    exact ⟨b, by rw [show (GSt.writeBack _ uid s').trace = s'.trace from rfl, htrace, hs1];
                 simp⟩

/-- C6.  A recognized command dispatched by a user with no cached
controller, when the connect and the following liveness probe succeed,
records exactly this transport activity: one connect to the configured
endpoint, then the probe, then the command's single instruction — one
connect attempt, occurring before the instruction write, and no second
connect. -/
theorem dispatch_connects_once_before_write (ω : Nat → Outcome) (cmd : Command)
    (uid host : String) (port : Nat) (g : GSt)
    (hmiss : g.cache uid = none) (hcmd : cmdOk cmd = true)
    (hconn : connOk (ω g.idx) = true) (hprobe : (ω (g.idx + 1)).raise = false) :
    ∃ b, (dispatch ω cmd uid host port g).2.trace =
        g.trace ++ [.connect host port, .shell "echo test" true,
                    .shell (cmdInstr cmd) b] ∧
      countConnect (dispatch ω cmd uid host port g).2.trace =
        countConnect g.trace + 1 := by
  have main : ∃ b, (dispatch ω cmd uid host port g).2.trace =
      g.trace ++ [.connect host port, .shell "echo test" true,
                  .shell (cmdInstr cmd) b] := by
    cases cmd with
    | power =>
      exact runTVRoute_fresh_trace ω uid host port powerM _ _ _ g hmiss hconn
        (fun s ser h1 h2 => sendKeyeventM_probeOk_trace ω KEYCODE_POWER s ser h1 h2)
        (fun s => sendKeyeventM_isOk ω KEYCODE_POWER s) hprobe
    | volumeUp =>
      exact runTVRoute_fresh_trace ω uid host port volumeUpM _ _ _ g hmiss hconn
        (fun s ser h1 h2 => sendKeyeventM_probeOk_trace ω KEYCODE_VOLUME_UP s ser h1 h2)
        (fun s => sendKeyeventM_isOk ω KEYCODE_VOLUME_UP s) hprobe
    | volumeDown =>
      exact runTVRoute_fresh_trace ω uid host port volumeDownM _ _ _ g hmiss hconn
        (fun s ser h1 h2 => sendKeyeventM_probeOk_trace ω KEYCODE_VOLUME_DOWN s ser h1 h2)
        (fun s => sendKeyeventM_isOk ω KEYCODE_VOLUME_DOWN s) hprobe
    | mute =>
      exact runTVRoute_fresh_trace ω uid host port muteM _ _ _ g hmiss hconn
        (fun s ser h1 h2 => sendKeyeventM_probeOk_trace ω KEYCODE_MUTE s ser h1 h2)
        (fun s => sendKeyeventM_isOk ω KEYCODE_MUTE s) hprobe
    | navigate d =>
      have hd : d ∈ valid_directions := of_decide_eq_true hcmd
      obtain ⟨k, hk⟩ := keycode_map_of_mem d hd
      have hnav : ∀ s, navigateM ω d s = sendKeyeventM ω k s := by
        intro s
        unfold navigateM
        rw [hk]
      have hcmdi : cmdInstr (.navigate d) = "input keyevent " ++ toString k := by
        simp only [cmdInstr, hk, Option.getD_some]
      rw [hcmdi]
      dsimp only [dispatch]
      unfold navigateRoute
      dsimp only
      simp only [hd, not_true_eq_false, if_false]
      refine runTVRoute_fresh_trace ω uid host port (fun ω s => navigateM ω d s)
        _ _ _ g hmiss hconn ?_ ?_ hprobe
      · intro s ser h1 h2
        simp only [hnav]
        exact sendKeyeventM_probeOk_trace ω k s ser h1 h2
      · intro s
        simp only [hnav]
        exact sendKeyeventM_isOk ω k s
    | launchApp p =>
      dsimp only [dispatch]
      unfold launchAppRoute
      dsimp only
      exact runTVRoute_fresh_trace ω uid host port (fun ω s => launchAppM ω p s)
        _ _ _ g hmiss hconn
        (fun s ser h1 h2 => launchAppM_probeOk_trace ω p s ser h1 h2)
        (fun s => launchAppM_isOk ω p s) hprobe
  obtain ⟨b, heq⟩ := main
  refine ⟨b, heq, ?_⟩
  rw [heq, countConnect_append]
  simp [countConnect, List.countP_cons, List.countP_nil]

/-- Witness for C6: the concrete all-succeeding world, empty cache. -/
theorem dispatch_connects_once_before_write_witness :
    ∃ b, (dispatch oracleOk .power "u" "h" 5555 gFresh).2.trace =
        gFresh.trace ++ [.connect "h" 5555, .shell "echo test" true,
                         .shell (cmdInstr .power) b] ∧
      countConnect (dispatch oracleOk .power "u" "h" 5555 gFresh).2.trace =
        countConnect gFresh.trace + 1 :=
  dispatch_connects_once_before_write oracleOk .power "u" "h" 5555 gFresh
    (by decide) (by decide) (by decide) (by decide)


/-- Under the all-succeeding world, `send_keyevent k` from any state with
a cached handle performs the probe and then exactly the single
instruction `input keyevent k`. -/
theorem sendKeyeventM_oracleOk (k : Nat) (host : String) (port : Nat)
    (ser : String) (idx : Nat) (tr : List TCall) :
    sendKeyeventM oracleOk k
        { ctrl := { host := host, port := port, device := some ser },
          idx := idx, trace := tr } =
      (.ok true,
       { ctrl := { host := host, port := port, device := some ser },
         idx := idx + 2,
         trace := tr ++ [.shell "echo test" true,
                         .shell ("input keyevent " ++ toString k) true] }) := by
  unfold sendKeyeventM
  rw [ensureConnectedM_probeOk oracleOk _ ser rfl rfl]
  dsimp only
  unfold shellCall oracleOk
  simp

/-- Under the all-succeeding world, `navigate d` for a mapped direction
sends exactly `input keyevent k` for its key code `k`. -/
theorem navigateM_oracleOk (d : String) (k : Nat) (hk : keycode_map d = some k)
    (host : String) (port : Nat) (ser : String) (idx : Nat) (tr : List TCall) :
    navigateM oracleOk d
        { ctrl := { host := host, port := port, device := some ser },
          idx := idx, trace := tr } =
      (.ok true,
       { ctrl := { host := host, port := port, device := some ser },
         idx := idx + 2,
         trace := tr ++ [.shell "echo test" true,
                         .shell ("input keyevent " ++ toString k) true] }) := by
  unfold navigateM
  rw [hk]
  exact sendKeyeventM_oracleOk k host port ser idx tr

/-- C8.  The fixed command-to-control-code translation: the key-code
constants hold their specified values, and each fixed command — from any
session state with a cached handle, under a transport where every call
succeeds — results in the single corresponding `input keyevent`
instruction being sent over the session's connection (after the probe). -/
theorem command_keycode_translation (host : String) (port : Nat) (ser : String)
    (idx : Nat) (tr : List TCall) :
    KEYCODE_POWER = 26 ∧ KEYCODE_VOLUME_UP = 24 ∧ KEYCODE_VOLUME_DOWN = 25 ∧
    KEYCODE_MUTE = 164 ∧ KEYCODE_DPAD_UP = 19 ∧ KEYCODE_DPAD_DOWN = 20 ∧
    KEYCODE_DPAD_LEFT = 21 ∧ KEYCODE_DPAD_RIGHT = 22 ∧ KEYCODE_DPAD_CENTER = 23 ∧
    KEYCODE_BACK = 4 ∧ KEYCODE_HOME = 3 ∧
    powerM oracleOk
        { ctrl := { host := host, port := port, device := some ser },
          idx := idx, trace := tr } =
      (.ok true,
       { ctrl := { host := host, port := port, device := some ser },
         idx := idx + 2,
         trace := tr ++ [.shell "echo test" true,
                         .shell "input keyevent 26" true] }) ∧
    volumeUpM oracleOk
        { ctrl := { host := host, port := port, device := some ser },
          idx := idx, trace := tr } =
      (.ok true,
       { ctrl := { host := host, port := port, device := some ser },
         idx := idx + 2,
         trace := tr ++ [.shell "echo test" true,
                         .shell "input keyevent 24" true] }) ∧
    volumeDownM oracleOk
        { ctrl := { host := host, port := port, device := some ser },
          idx := idx, trace := tr } =
      (.ok true,
       { ctrl := { host := host, port := port, device := some ser },
         idx := idx + 2,
         trace := tr ++ [.shell "echo test" true,
                         .shell "input keyevent 25" true] }) ∧
    muteM oracleOk
        { ctrl := { host := host, port := port, device := some ser },
          idx := idx, trace := tr } =
      (.ok true,
       { ctrl := { host := host, port := port, device := some ser },
         idx := idx + 2,
         trace := tr ++ [.shell "echo test" true,
                         .shell "input keyevent 164" true] }) ∧
    navigateM oracleOk "up"
        { ctrl := { host := host, port := port, device := some ser },
          idx := idx, trace := tr } =
      (.ok true,
       { ctrl := { host := host, port := port, device := some ser },
         idx := idx + 2,
         trace := tr ++ [.shell "echo test" true,
                         .shell "input keyevent 19" true] }) ∧
    navigateM oracleOk "down"
        { ctrl := { host := host, port := port, device := some ser },
          idx := idx, trace := tr } =
      (.ok true,
       { ctrl := { host := host, port := port, device := some ser },
         idx := idx + 2,
         trace := tr ++ [.shell "echo test" true,
                         .shell "input keyevent 20" true] }) ∧
    navigateM oracleOk "left"
        { ctrl := { host := host, port := port, device := some ser },
          idx := idx, trace := tr } =
      (.ok true,
       { ctrl := { host := host, port := port, device := some ser },
         idx := idx + 2,
         trace := tr ++ [.shell "echo test" true,
                         .shell "input keyevent 21" true] }) ∧
    navigateM oracleOk "right"
        { ctrl := { host := host, port := port, device := some ser },
          idx := idx, trace := tr } =
      (.ok true,
       { ctrl := { host := host, port := port, device := some ser },
         idx := idx + 2,
         trace := tr ++ [.shell "echo test" true,
                         .shell "input keyevent 22" true] }) ∧
    navigateM oracleOk "ok"
        { ctrl := { host := host, port := port, device := some ser },
          idx := idx, trace := tr } =
      (.ok true,
       { ctrl := { host := host, port := port, device := some ser },
         idx := idx + 2,
         trace := tr ++ [.shell "echo test" true,
                         .shell "input keyevent 23" true] }) ∧
    navigateM oracleOk "back"
        { ctrl := { host := host, port := port, device := some ser },
          idx := idx, trace := tr } =
      (.ok true,
       { ctrl := { host := host, port := port, device := some ser },
         idx := idx + 2,
         trace := tr ++ [.shell "echo test" true,
                         .shell "input keyevent 4" true] }) ∧
    navigateM oracleOk "home"
        { ctrl := { host := host, port := port, device := some ser },
          idx := idx, trace := tr } =
      (.ok true,
       { ctrl := { host := host, port := port, device := some ser },
         idx := idx + 2,
         trace := tr ++ [.shell "echo test" true,
                         .shell "input keyevent 3" true] }) := by
  refine ⟨rfl, rfl, rfl, rfl, rfl, rfl, rfl, rfl, rfl, rfl, rfl,
    ?_, ?_, ?_, ?_, ?_, ?_, ?_, ?_, ?_, ?_, ?_⟩
  · exact (sendKeyeventM_oracleOk KEYCODE_POWER host port ser idx tr).trans
      (by rw [show ("input keyevent " ++ toString KEYCODE_POWER) =
        "input keyevent 26" from by decide])
  · exact (sendKeyeventM_oracleOk KEYCODE_VOLUME_UP host port ser idx tr).trans
      (by rw [show ("input keyevent " ++ toString KEYCODE_VOLUME_UP) =
        "input keyevent 24" from by decide])
  · exact (sendKeyeventM_oracleOk KEYCODE_VOLUME_DOWN host port ser idx tr).trans
      (by rw [show ("input keyevent " ++ toString KEYCODE_VOLUME_DOWN) =
        "input keyevent 25" from by decide])
  · exact (sendKeyeventM_oracleOk KEYCODE_MUTE host port ser idx tr).trans
      (by rw [show ("input keyevent " ++ toString KEYCODE_MUTE) =
        "input keyevent 164" from by decide])
  · exact (navigateM_oracleOk "up" 19 (by decide) host port ser idx tr).trans
      (by rw [show ("input keyevent " ++ toString (19 : Nat)) =
        "input keyevent 19" from by decide])
  · exact (navigateM_oracleOk "down" 20 (by decide) host port ser idx tr).trans
      (by rw [show ("input keyevent " ++ toString (20 : Nat)) =
        "input keyevent 20" from by decide])
  · exact (navigateM_oracleOk "left" 21 (by decide) host port ser idx tr).trans
      (by rw [show ("input keyevent " ++ toString (21 : Nat)) =
        "input keyevent 21" from by decide])
  · exact (navigateM_oracleOk "right" 22 (by decide) host port ser idx tr).trans
      (by rw [show ("input keyevent " ++ toString (22 : Nat)) =
        "input keyevent 22" from by decide])
  · exact (navigateM_oracleOk "ok" 23 (by decide) host port ser idx tr).trans
      (by rw [show ("input keyevent " ++ toString (23 : Nat)) =
        "input keyevent 23" from by decide])
  · exact (navigateM_oracleOk "back" 4 (by decide) host port ser idx tr).trans
      (by rw [show ("input keyevent " ++ toString (4 : Nat)) =
        "input keyevent 4" from by decide])
  · exact (navigateM_oracleOk "home" 3 (by decide) host port ser idx tr).trans
      (by rw [show ("input keyevent " ++ toString (3 : Nat)) =
        "input keyevent 3" from by decide])


/-- C10.  The controller cache is monotone and per-key stable:
`get_tv_controller` never removes or replaces an existing entry — a
cached user gets back exactly the cached controller object with the
whole state untouched — entries of other users are never affected, and
for an uncached user either one successful connect inserts a fresh
connected controller (and returns it) or nothing is returned and the
cache is left exactly as it was. -/
theorem getTVController_cache_monotone (ω : Nat → Outcome) (uid host : String)
    (port : Nat) (g : GSt) :
    (∀ c, g.cache uid = some c → getTVController ω uid host port g = (some c, g)) ∧
    (∀ v, v ≠ uid →
       (getTVController ω uid host port g).2.cache v = g.cache v) ∧
    (∀ c, g.cache uid = some c →
       (getTVController ω uid host port g).2.cache uid = some c) ∧
    (g.cache uid = none →
       (∃ c, (getTVController ω uid host port g).1 = some c ∧
          (getTVController ω uid host port g).2.cache uid = some c ∧
          c.device ≠ none) ∨
       ((getTVController ω uid host port g).1 = none ∧
        (getTVController ω uid host port g).2.cache = g.cache)) := by
  rcases hcache : g.cache uid with _ | c
  · rw [getTVController_cacheMiss ω uid host port g hcache]
    by_cases hc : connOk (ω g.idx)
    · rw [if_pos hc]
      obtain ⟨hraise, ser, hdev, hser⟩ := connOk_dev _ hc
      refine ⟨?_, ?_, ?_, ?_⟩
      · intro c' hsome
        cases hsome
      · intro v hv
        dsimp only
        simp [hv]
      · intro c' hsome
        cases hsome
      · intro _
        left
        refine ⟨_, rfl, by dsimp only; simp, ?_⟩
        dsimp only
        rw [hdev]
        simp
    · rw [if_neg hc]
      refine ⟨?_, ?_, ?_, ?_⟩
      · intro c' hsome
        cases hsome
      · intro v _
        rfl
      · intro c' hsome
        cases hsome
      · intro _
        right
        exact ⟨rfl, rfl⟩
  · rw [getTVController_cacheHit ω uid host port g c hcache]
    refine ⟨?_, ?_, ?_, ?_⟩
    · intro c' hsome
      injection hsome with h
      rw [h]
    · intro v _
      rfl
    · intro c' hsome
      exact hcache.trans hsome
    · intro hnone
      cases hnone

/-- Witness for C10: with a cached controller, the function returns that
very controller and changes nothing. -/
theorem getTVController_cache_monotone_witness :
    getTVController oracleOk "u" "h" 5555 gCached = (some ctrlCached, gCached) :=
  (getTVController_cache_monotone oracleOk "u" "h" 5555 gCached).1 ctrlCached
    (by decide)

end AndroidRemote
